import Mathlib

/-!
Verification of `streamoly.py`, an interactive dashboard that loads a venue
table, queries a remote isochrone service over HTTP GET, and renders the
returned hex-bin counts as map layers.

The embedding below translates the Python source into Lean definitions:

* Python floats are modelled as rationals (`ℚ`); the float values reached by
  the concrete inputs in this file are exactly representable, and the one
  place where IEEE special values matter (division by a zero maximum, which
  produces `nan`/`inf` and then makes `int(...)` raise) is modelled as an
  explicit failure (`Option`/`Except`).
* Fallible Python code (exceptions) is modelled with `Option` and `Except`.
* A Python `dict` is modelled as an association list with insert-or-update
  (`dictInsert`), which preserves Python dict insertion order and
  last-write-wins semantics.
* Python string primitives (`strip`, `split`, slicing) are modelled by
  structural functions on the character list of the string, covering the
  ASCII subset this program feeds them.
* `pd.read_csv` on an in-memory string is modelled on the subset of its
  behaviour this program exercises: comma splitting with a header line,
  blank lines skipped, missing trailing fields padded (pandas fills `NaN`,
  modelled as the empty string), a row with more fields than the header
  raising a parser error, and an entirely blank input raising
  `EmptyDataError`.  The parsed frame is kept as raw cell text; pandas
  per-column dtype inference becomes observable only through the `astype`
  conversions of lines 92 and 93 and is modelled there
  (`astype_str_cells`): an all-integer column is re-rendered canonically
  by `astype(str)`, while a column with a certainly-non-numeric cell and
  no missing-value strings keeps its text.
-/

/-- Truncation toward zero, the semantics of the Python builtin `int()`
applied to a finite float. -/
def truncToward0 (q : ℚ) : ℤ :=
  if 0 ≤ q then ⌊q⌋ else ⌈q⌉

/-- Round half to even, the semantics of the Python builtin `round()` on a
finite value.  This definition follows the spec wording of the colour claim
(which says `round`); the source itself uses `int()` truncation. -/
def pyRound (q : ℚ) : ℤ :=
  if q - ⌊q⌋ < 1/2 then ⌊q⌋
  else if 1/2 < q - ⌊q⌋ then ⌊q⌋ + 1
  else if ⌊q⌋ % 2 = 0 then ⌊q⌋ else ⌊q⌋ + 1

/-- Decimal digits of a natural number, least significant first; the digit
sequence printed by Python `str()` on a non-negative int. -/
def natDigitsRev (n : ℕ) : List ℕ :=
  if h : n < 10 then [n]
  else n % 10 :: natDigitsRev (n / 10)
termination_by n
decreasing_by exact Nat.div_lt_self (by omega) (by omega)

/-- The character Python prints for one decimal digit (digits are always in
`0..9` here; the catch-all arm is never reached from `natDigitsRev`). -/
def digitChar (d : ℕ) : Char :=
  match d with
  | 0 => '0' | 1 => '1' | 2 => '2' | 3 => '3' | 4 => '4'
  | 5 => '5' | 6 => '6' | 7 => '7' | 8 => '8' | _ => '9'

/-- Python `str()` on a non-negative integer: its decimal digit characters,
most significant first. -/
def pyStr (n : ℕ) : String :=
  String.mk ((natDigitsRev n).reverse.map digitChar)

/-- Value of a little-endian digit list; used to show `natDigitsRev` is
injective. -/
def evalRev : List ℕ → ℕ
  | [] => 0
  | d :: ds => d + 10 * evalRev ds

/-- The ASCII whitespace characters Python `strip()` removes on the inputs
this program handles. -/
def isPySpace (c : Char) : Bool :=
  c = ' ' || c = '\n' || c = '\t' || c = '\r'

/-- Python `s.strip()` on ASCII text: whitespace removed from both ends. -/
def pyStrip (s : String) : String :=
  String.mk (((s.data.dropWhile isPySpace).reverse.dropWhile isPySpace).reverse)

/-- Core of Python `s.split(sep)` for a one-character separator. -/
def pySplitAux (sep : Char) : List Char → List (List Char)
  | [] => [[]]
  | c :: cs =>
    if c = sep then [] :: pySplitAux sep cs
    else
      match pySplitAux sep cs with
      | [] => [[c]]
      | g :: gs => (c :: g) :: gs

/-- Python `s.split(sep)` for a one-character separator; in particular
`pySplit sep "" = [""]`, as in Python. -/
def pySplit (sep : Char) (s : String) : List String :=
  (pySplitAux sep s.data).map String.mk

/-- Python slicing `s[:n]` for a non-negative bound. -/
def pyTake (s : String) (n : ℕ) : String :=
  String.mk (s.data.take n)

/-- Insert-or-update on an association list: the shallow embedding of one
Python dict assignment `d[k] = v`.  An existing key keeps its position and
gets the new value; a new key is appended, matching dict insertion order. -/
def dictInsert (d : List (String × String)) (k v : String) : List (String × String) :=
  if d.any (fun p => p.1 = k) then
    d.map (fun p => if p.1 = k then (k, v) else p)
  else d ++ [(k, v)]

/-- Row-wise application of a fallible function, the embedding of a Python
loop or `apply` in which any raised exception aborts the whole operation. -/
def mapOrFail (f : α → Option β) : List α → Option (List β)
  | [] => some []
  | x :: xs =>
    match f x with
    | none => none
    | some y =>
      match mapOrFail f xs with
      | none => none
      | some ys => some (y :: ys)

/-- The query key Python builds with the f-string `f"stadium_codes[{i}]"`
(source line 30). -/
def stadiumKey (i : ℕ) : String :=
  "stadium_codes[" ++ pyStr i ++ "]"

/-- The query parameters built by `fetch_data` (source lines 21 to 30): the
five scalar keys are inserted first, then one indexed key per stadium code,
via `enumerate`.  Integer-valued parameters are rendered in decimal, as the
HTTP layer serialises them. -/
def build_params (stadium_codes : List String) (travel_time : ℕ)
    (travel_mode : String) (resolution : ℕ) : List (String × String) :=
  let base :=
    [("dtype_out_raster", "png"),
     ("dtype_out_vector", "csv"),
     ("travel_time", pyStr travel_time),
     ("travel_mode", travel_mode),
     ("resolution", pyStr resolution)]
  (stadium_codes.enum).foldl
    (fun d ic => dictInsert d (stadiumKey ic.1) ic.2) base

/-- A parsed tabular response: the header names and the field rows, each row
padded to the header width. -/
structure Table where
  header : List String
  rows : List (List String)
deriving DecidableEq

/-- The two parse failures `pd.read_csv` can raise on this path. -/
inductive PdError
  | emptyData
  | parserError
deriving DecidableEq

/-- Model of `pd.read_csv(StringIO(content))` on the subset of behaviour the
program exercises: lines split on newline, blank lines skipped, fields split
on comma, the first line the header; an entirely blank input raises
`EmptyDataError`; a data row with more fields than the header raises a
parser error; a short row is padded (pandas fills `NaN`, modelled `""`).
The returned table holds the raw cell text; per-column dtype inference is
modelled at the point it becomes observable, the `astype` conversions
(see `astype_str_cells`). -/
def pdReadCSV (content : String) : Except PdError Table :=
  match (pySplit '\n' content).filter (fun l => l ≠ "") with
  | [] => .error .emptyData
  | h :: rest =>
    let header := pySplit ',' h
    let rawRows := rest.map (fun l => pySplit ',' l)
    if rawRows.any (fun r => header.length < r.length) then .error .parserError
    else .ok ⟨header, rawRows.map (fun r => r ++ List.replicate (header.length - r.length) "")⟩

/-- The Python exceptions that can cross function boundaries in this
program. -/
inductive PyError
  | keyError
  | networkError
  | httpStatusError (status : ℕ)
  | emptyResponse
  | malformedCsv (snippet : String)
  | pandasParserError
  | valueError
deriving DecidableEq

/-- The outcome of the HTTP GET as seen by the client: `none` is a
transport-level failure (the requests exception), otherwise a status code
and a body. -/
abbrev HttpResult := Option (ℕ × String)

/-- Response handling of `fetch_data` (source lines 32 to 41):
`raise_for_status` raises for a 4xx or 5xx status; a body that is blank
after `strip()` raises the "Empty response" `ValueError`; the body is then
parsed with `pd.read_csv`, converting only `EmptyDataError` into the
"Empty or invalid CSV" `ValueError` whose displayed diagnostic carries the
first 1000 characters of the stripped body; any other pandas parse failure
propagates unconverted. -/
def fetch_data (resp : HttpResult) : Except PyError Table :=
  match resp with
  | none => .error .networkError
  | some (status, body) =>
    if 400 ≤ status then .error (.httpStatusError status)
    else
      let content := pyStrip body
      if content = "" then .error .emptyResponse
      else
        match pdReadCSV content with
        | .ok t => .ok t
        | .error .emptyData => .error (.malformedCsv (pyTake content 1000))
        | .error .parserError => .error .pandasParserError

/-- Numeric value of a decimal digit list (most significant first). -/
def digitsVal (cs : List Char) : ℕ :=
  cs.foldl (fun a c => 10 * a + (c.toNat - 48)) 0

/-- Whether every character is an ASCII decimal digit. -/
def allDigits (cs : List Char) : Bool :=
  cs.all (fun c => 48 ≤ c.toNat && c.toNat ≤ 57)

/-- Unsigned decimal part of Python `float()`: digits with an optional
single decimal point, at least one digit overall. -/
def parseDec (u : List Char) : Option ℚ :=
  match pySplitAux '.' u with
  | [a] =>
    if a ≠ [] && allDigits a then some (digitsVal a) else none
  | [a, b] =>
    if (a ≠ [] || b ≠ []) && allDigits a && allDigits b then
      some (digitsVal a + (digitsVal b : ℚ) / 10 ^ b.length)
    else none
  | _ => none

/-- Model of Python `float()` on a string (the elementwise conversion behind
`astype(float)`), on the decimal subset this program meets: optional
whitespace, optional sign, digits with an optional single decimal point; a
string that does not fit raises, modelled as `none`. -/
def parseFloat? (s : String) : Option ℚ :=
  match (pyStrip s).data with
  | '-' :: rest => (parseDec rest).map (fun q => -q)
  | '+' :: rest => parseDec rest
  | t => parseDec t

/-- Whether a CSV cell is an integer literal to the pandas type sniffer:
an optional minus sign followed by one or more ASCII digits.  (A leading
plus sign is left outside the modelled subset: no theorem below claims
anything about a column containing one.) -/
def looksLikeInt (s : String) : Bool :=
  match s.data with
  | [] => false
  | c :: cs => if c = '-' then !cs.isEmpty && allDigits cs else allDigits (c :: cs)

/-- What line 92's `astype(str)` prints for one cell of an integer-inferred
column: the parsed value re-rendered by `str(int)`, so leading zeros are
lost and `-0` becomes `0`.  (The empty arm is unreachable for cells that
satisfy `looksLikeInt`.) -/
def renderIntCell (s : String) : String :=
  match s.data with
  | [] => s
  | c :: cs =>
    if c = '-' then
      if digitsVal cs = 0 then pyStr 0 else "-" ++ pyStr (digitsVal cs)
    else pyStr (digitsVal (c :: cs))

/-- Column-level effect of `pd.read_csv` dtype inference followed by line
92's `astype(str)`, on the modelled subset: a non-empty column whose cells
are all integer literals is inferred `int64` and each value is re-rendered
canonically (`"007"` becomes `"7"`); any other column is kept as its raw
cell text here, which is faithful exactly when some cell is
`definitelyNonNumeric` and no cell is a missing-value string — the column
is then `object` dtype holding its original strings.  Columns that are
numeric-looking without being all-integer (floats, exponent notation),
values beyond `int64`, and missing-value replacement lie outside the
modelled subset, and the theorems below restrict themselves to the
faithful regions. -/
def astype_str_cells (cells : List String) : List String :=
  if !cells.isEmpty && cells.all looksLikeInt then cells.map renderIntCell
  else cells

/-- One response row after the conversions of source lines 92 and 93:
`cell_id` cast to string, `cnt` cast to float. -/
structure DataRow where
  cell_id : String
  cnt : ℚ
deriving DecidableEq

/-- The column conversions of source lines 92 and 93: `data["cell_id"]`
and `data["cnt"]` are looked up (a missing column raises `KeyError`),
`cell_id` goes through dtype inference plus `astype(str)`
(`astype_str_cells`), and `cnt` is cast to `float`, raising `ValueError`
on a cell that is not a numeral.  On the numeric columns pandas infers,
`astype(float)` yields the same value as `float()` on the raw cell text,
so the `cnt` conversion needs no dtype distinction. -/
def process_data (t : Table) : Except PyError (List DataRow) :=
  match t.header.findIdx? (fun h => h = "cell_id"), t.header.findIdx? (fun h => h = "cnt") with
  | some ci, some ni =>
    let ids := astype_str_cells (t.rows.map (fun r => r.getD ci ""))
    match mapOrFail (fun r => parseFloat? (r.getD ni "")) t.rows with
    | some cnts => .ok (List.zipWith DataRow.mk ids cnts)
    | none => .error .valueError
  | _, _ => .error .keyError

/-- Hex value of one character, as Python `int(c, 16)` reads ASCII
hexadecimal digits. -/
def hexDigitVal? (c : Char) : Option ℕ :=
  if 48 ≤ c.toNat && c.toNat ≤ 57 then some (c.toNat - 48)
  else if 97 ≤ c.toNat && c.toNat ≤ 102 then some (c.toNat - 87)
  else if 65 ≤ c.toNat && c.toNat ≤ 70 then some (c.toNat - 55)
  else none

/-- Accumulator loop behind `int(s, 16)`. -/
def int16Core : ℕ → List Char → Option ℕ
  | acc, [] => some acc
  | acc, c :: cs =>
    match hexDigitVal? c with
    | some v => int16Core (16 * acc + v) cs
    | none => none

/-- Python `int(s, 16)` on a plain hexadecimal-digit string: fails on the
empty string or on a non-hex character (the prefixes and underscores the
builtin also accepts never occur here). -/
def int16? (cs : List Char) : Option ℕ :=
  match cs with
  | [] => none
  | _ => int16Core 0 cs

/-- Python `s.lstrip("#")`: every leading `#` removed. -/
def pyLstripHash : List Char → List Char
  | [] => []
  | c :: cs => if c = '#' then pyLstripHash cs else c :: cs

/-- Source lines 51 to 53: strip leading `#`, then read the three character
pairs at offsets 0, 2 and 4 as base-16 numbers.  A slice that is not valid
hexadecimal (or is empty) makes `int(. , 16)` raise, modelled as `none`. -/
def hex_to_rgb (s : String) : Option (ℕ × ℕ × ℕ) :=
  let t := pyLstripHash s.data
  match int16? ((t.drop 0).take 2), int16? ((t.drop 2).take 2), int16? ((t.drop 4).take 2) with
  | some r, some g, some b => some (r, g, b)
  | _, _, _ => none

/-- The per-row closure of source lines 96 to 99, capturing `max_cnt`:
elevation is the count, colour is `[255, int((1 - cnt / max_cnt) * 255), 0]`.
When `max_cnt` is zero the float division yields `nan` (or `inf`), and the
later `int(...)` raises; that failure is modelled as `none`. -/
def get_elevation_and_color (max_cnt : ℚ) (row : DataRow) : Option (ℚ × (ℤ × ℤ × ℤ)) :=
  if max_cnt = 0 then none
  else some (row.cnt, (255, truncToward0 ((1 - row.cnt / max_cnt) * 255), 0))

/-- Maximum of a pandas numeric series: `none` (`nan`) when empty. -/
def seriesMax : List ℚ → Option ℚ
  | [] => none
  | x :: xs => some (xs.foldl max x)

/-- Mean of a pandas numeric series: `none` (`nan`) when empty, which is how
`scatter_data["latitude"].mean()` behaves on an empty selection. -/
def seriesMean (xs : List ℚ) : Option ℚ :=
  if xs = [] then none else some (xs.sum / xs.length)

/-- One rendered hexagon of the H3HexagonLayer. -/
structure HexCell where
  cell_id : String
  elevation : ℚ
  color : ℤ × ℤ × ℤ
deriving DecidableEq

/-- The H3HexagonLayer of source lines 106 to 117. -/
structure HexLayer where
  cells : List HexCell
  extruded : Bool
  elevation_scale : ℚ
  pickable : Bool
deriving DecidableEq

/-- The ScatterplotLayer of source lines 123 to 130: one position per
selected venue, fixed colour and radius. -/
structure ScatterLayer where
  positions : List (ℚ × ℚ)
  get_color : ℤ × ℤ × ℤ × ℤ
  get_radius : ℚ
deriving DecidableEq

/-- The pdk.ViewState of source lines 133 to 138.  The centre coordinates
are pandas means and hence `nan` (`none`) for an empty selection; the
ViewState constructor stores them without complaint. -/
structure ViewState where
  latitude : Option ℚ
  longitude : Option ℚ
  zoom : ℚ
  pitch : ℚ
deriving DecidableEq

/-- One loaded venue record (columns `Nom_Site`, `Code_Site`, `latitude`,
`longitude` of the static table). -/
structure Venue where
  name : String
  code : String
  latitude : ℚ
  longitude : ℚ
deriving DecidableEq

/-- The three renderables handed to `pdk.Deck`. -/
abbrev Deck := HexLayer × ScatterLayer × ViewState

/-- Source lines 94 to 138, the layer-building slice of `main` (the spec
calls it `LayerBuilder.build`): recompute `max_cnt`, derive per-row
elevation and colour (an empty frame makes the `zip(*...)` unpacking raise,
and a zero `max_cnt` makes the colour derivation raise, both `ValueError`),
then build the hexagon layer, the scatter layer over the selected venues,
and the view state centred on the venue coordinate means. -/
def layer_builder_build (rows : List DataRow) (venues_selected : List Venue) :
    Except PyError Deck :=
  match seriesMax (rows.map (fun r => r.cnt)) with
  | none => .error .valueError
  | some max_cnt =>
    match mapOrFail
        (fun r => (get_elevation_and_color max_cnt r).map
          (fun ec => HexCell.mk r.cell_id ec.1 ec.2))
        rows with
    | none => .error .valueError
    | some cells =>
      .ok (HexLayer.mk cells true 20 true,
           ScatterLayer.mk (venues_selected.map (fun v => (v.longitude, v.latitude))) (200, 30, 0, 160) 200,
           ViewState.mk (seriesMean (venues_selected.map (fun v => v.latitude)))
             (seriesMean (venues_selected.map (fun v => v.longitude))) 11 20)

/-- Source line 62: `dict(zip(stadium_data["Nom_Site"], stadium_data["Code_Site"]))`,
built one insertion at a time, so a duplicated name keeps the last code. -/
def name_to_code (catalog : List Venue) : List (String × String) :=
  catalog.foldl (fun d v => dictInsert d v.name v.code) []

/-- Source line 75: `[name_to_code[name] for name in selected_stadiums]`; a
name absent from the dict raises `KeyError` (this line runs outside the
`try` block). -/
def lookupCodes (catalog : List Venue) (selected : List String) : Option (List String) :=
  mapOrFail (fun n => (name_to_code catalog).lookup n) selected

/-- The body of the `try` block (source lines 85 to 147): fetch, convert,
build the layers over the venues whose names are selected. -/
def run_inner (catalog : List Venue) (selected : List String) (resp : HttpResult) :
    Except PyError Deck :=
  match fetch_data resp with
  | .error e => .error e
  | .ok t =>
    match process_data t with
    | .error e => .error e
    | .ok rows => layer_builder_build rows (catalog.filter (fun v => selected.contains v.name))

/-- What one script run displays at the end. -/
inductive Outcome
  | notTriggered
  | rendered (deck : Deck)
  | errorMessage (e : PyError)
  | crashed (e : PyError)
deriving DecidableEq

/-- Whether an outcome is an exception that escaped every handler. -/
def isCrashed : Outcome → Bool
  | .crashed _ => true
  | _ => false

/-- The observable result of one script run: whether the remote query was
issued, and what was displayed. -/
structure CycleResult where
  fetchInvoked : Bool
  outcome : Outcome
deriving DecidableEq

/-- One user-triggered run of `main` (source lines 56 to 153) from the
selection onward: the selected names are converted to codes (line 75,
outside any handler, so a miss crashes the run), and if the button was
pressed the whole fetch-and-render body runs inside
`try ... except Exception`, every raised error becoming the single
`st.error` message of line 150.  The remote query is issued whenever the
button was pressed; no validation precedes it. -/
def main_cycle (catalog : List Venue) (selected : List String) (triggered : Bool)
    (resp : HttpResult) : CycleResult :=
  match lookupCodes catalog selected with
  | none => CycleResult.mk false (.crashed .keyError)
  | some _ =>
    if triggered then
      match run_inner catalog selected resp with
      | .ok deck => CycleResult.mk true (.rendered deck)
      | .error e => CycleResult.mk true (.errorMessage e)
    else CycleResult.mk false .notTriggered

deriving instance DecidableEq for Except

theorem natDigitsRev_lt10 (n : ℕ) : ∀ d ∈ natDigitsRev n, d < 10 := by
  induction n using Nat.strong_induction_on with
  | _ n ih =>
    rw [natDigitsRev]
    split
    · intro d hd; simp at hd; omega
    · intro d hd
      rcases List.mem_cons.mp hd with h | h
      · subst h; omega
      · exact ih (n / 10) (Nat.div_lt_self (by omega) (by omega)) d h

theorem evalRev_natDigitsRev (n : ℕ) : evalRev (natDigitsRev n) = n := by
  induction n using Nat.strong_induction_on with
  | _ n ih =>
    rw [natDigitsRev]
    split
    · simp [evalRev]
    · simp only [evalRev]
      rw [ih (n / 10) (Nat.div_lt_self (by omega) (by omega))]
      omega

theorem digitChar_inj {a b : ℕ} (ha : a < 10) (hb : b < 10)
    (h : digitChar a = digitChar b) : a = b := by
  interval_cases a <;> interval_cases b <;> revert h <;> decide

theorem map_digitChar_inj : ∀ l1 l2 : List ℕ, (∀ d ∈ l1, d < 10) → (∀ d ∈ l2, d < 10) →
    l1.map digitChar = l2.map digitChar → l1 = l2
  | [], [], _, _, _ => rfl
  | [], _ :: _, _, _, h => by simp at h
  | _ :: _, [], _, _, h => by simp at h
  | a :: l1, b :: l2, h1, h2, h => by
    simp only [List.map_cons, List.cons.injEq] at h
    have hab := digitChar_inj (h1 a (by simp)) (h2 b (by simp)) h.1
    subst hab
    rw [map_digitChar_inj l1 l2 (fun d hd => h1 d (by simp [hd]))
      (fun d hd => h2 d (by simp [hd])) h.2]

theorem pyStr_inj {a b : ℕ} (h : pyStr a = pyStr b) : a = b := by
  have h2 : (natDigitsRev a).reverse.map digitChar = (natDigitsRev b).reverse.map digitChar :=
    congrArg String.data h
  have h3 := map_digitChar_inj _ _
    (fun d hd => natDigitsRev_lt10 a d (List.mem_reverse.mp hd))
    (fun d hd => natDigitsRev_lt10 b d (List.mem_reverse.mp hd)) h2
  have h4 := List.reverse_injective h3
  calc a = evalRev (natDigitsRev a) := (evalRev_natDigitsRev a).symm
    _ = evalRev (natDigitsRev b) := by rw [h4]
    _ = b := evalRev_natDigitsRev b

theorem stadiumKey_inj {i j : ℕ} (h : stadiumKey i = stadiumKey j) : i = j := by
  have h2 := congrArg String.data h
  unfold stadiumKey at h2
  rw [String.data_append, String.data_append, String.data_append, String.data_append] at h2
  have h3 := List.append_cancel_left (List.append_cancel_right h2)
  exact pyStr_inj (String.ext h3)

theorem stadiumKey_head (i : ℕ) : (stadiumKey i).data.head? = some 's' := by
  unfold stadiumKey
  rw [String.data_append, String.data_append]
  rfl

theorem scalarKey_ne_stadiumKey {k : String} (hk : k.data.head? ≠ some 's') (j : ℕ) :
    k ≠ stadiumKey j := by
  intro e
  exact hk (by rw [e, stadiumKey_head])

theorem dictInsert_fresh {d : List (String × String)} {k v : String}
    (h : d.any (fun p => p.1 = k) = false) : dictInsert d k v = d ++ [(k, v)] := by
  unfold dictInsert
  rw [if_neg (by simp [h])]

theorem foldl_dictInsert_stadium (cs : List String) :
    ∀ (k : ℕ) (d : List (String × String)),
      (∀ j, k ≤ j → d.any (fun p => p.1 = stadiumKey j) = false) →
      (List.enumFrom k cs).foldl (fun d ic => dictInsert d (stadiumKey ic.1) ic.2) d
        = d ++ (List.enumFrom k cs).map (fun ic => (stadiumKey ic.1, ic.2)) := by
  induction cs with
  | nil => intro k d h; simp [List.enumFrom]
  | cons c cs ih =>
    intro k d h
    rw [show List.enumFrom k (c :: cs) = (k, c) :: List.enumFrom (k + 1) cs from rfl,
      List.foldl_cons, List.map_cons]
    rw [show dictInsert d (stadiumKey k) c = d ++ [(stadiumKey k, c)] from
      dictInsert_fresh (h k (le_refl k))]
    rw [ih (k + 1) (d ++ [(stadiumKey k, c)]) ?fresh]
    · simp
    case fresh =>
      intro j hj
      rw [List.any_append, h j (by omega)]
      simp only [Bool.false_or, List.any_cons, List.any_nil, Bool.or_false]
      simp only [decide_eq_false_iff_not]
      intro e
      exact absurd (stadiumKey_inj e) (by omega)

/-- Claim C5: for every list of venue codes, the built query parameter list
is the five scalar keys `dtype_out_raster`, `dtype_out_vector`,
`travel_time`, `travel_mode`, `resolution`, followed by one indexed key
`stadium_codes[i]` per code, in order of the codes. -/
theorem C5_indexed_stadium_keys (codes : List String) (travel_time : ℕ)
    (travel_mode : String) (resolution : ℕ) :
    build_params codes travel_time travel_mode resolution =
      [("dtype_out_raster", "png"),
       ("dtype_out_vector", "csv"),
       ("travel_time", pyStr travel_time),
       ("travel_mode", travel_mode),
       ("resolution", pyStr resolution)]
      ++ codes.enum.map (fun ic => (stadiumKey ic.1, ic.2)) := by
  unfold build_params
  rw [show codes.enum = List.enumFrom 0 codes from rfl]
  refine foldl_dictInsert_stadium codes 0 _ ?_
  intro j hj
  simp only [List.any_cons, List.any_nil, Bool.or_false, decide_eq_false_iff_not]
  simp only [Bool.or_eq_false_iff, decide_eq_false_iff_not]
  refine ⟨?_, ?_, ?_, ?_, ?_⟩ <;> exact scalarKey_ne_stadiumKey (by decide) j

theorem foldl_max_zero : ∀ xs : List ℚ, (∀ x ∈ xs, x = 0) → xs.foldl max 0 = 0
  | [], _ => rfl
  | x :: xs, h => by
    rw [List.foldl_cons, h x (by simp), max_self]
    exact foldl_max_zero xs (fun y hy => h y (by simp [hy]))

/-- Claim C1, counterexample: for the one-row response whose count is 0 the
layer derivation does not yield a defined colour for every row; the whole
build aborts with the `ValueError` raised by `int()` on the undefined
ratio. -/
theorem C1_counterexample :
    layer_builder_build [DataRow.mk "a" 0] [] = .error .valueError := by
  unfold layer_builder_build
  have hmax : seriesMax ([DataRow.mk "a" 0].map (fun r => r.cnt)) = some 0 := by
    simp [seriesMax]
  rw [hmax]
  have hcol : get_elevation_and_color 0 (DataRow.mk "a" 0) = none := by
    unfold get_elevation_and_color
    rw [if_pos rfl]
  simp [mapOrFail, hcol]

/-- Claim C1, amended: for every non-empty response whose rows all have
count 0 (so `max_cnt` is 0), the colour/elevation derivation does NOT
treat the ratio as 0: the division yields an undefined value, the
derivation fails, and no row receives a colour — the build raises
`ValueError` instead of producing layers. -/
theorem C1_zero_max_aborts (rows : List DataRow) (venues : List Venue)
    (hne : rows ≠ []) (hz : ∀ r ∈ rows, r.cnt = 0) :
    layer_builder_build rows venues = .error .valueError := by
  cases rows with
  | nil => exact absurd rfl hne
  | cons r rs =>
    unfold layer_builder_build
    have hmax : seriesMax ((r :: rs).map (fun r => r.cnt)) = some 0 := by
      simp only [List.map_cons, seriesMax]
      rw [hz r (by simp)]
      rw [foldl_max_zero _ (fun x hx => by
        rcases List.mem_map.mp hx with ⟨s, hs, e⟩
        rw [← e]
        exact hz s (by simp [hs]))]
    rw [hmax]
    have hcol : get_elevation_and_color 0 r = none := by
      unfold get_elevation_and_color
      rw [if_pos rfl]
    simp [mapOrFail, hcol]

/-- Claim C1, witness for the amended theorem at a concrete all-zero
response. -/
theorem C1_zero_max_aborts_witness :
    layer_builder_build [DataRow.mk "h3cell" 0] [] = .error .valueError :=
  C1_zero_max_aborts [DataRow.mk "h3cell" 0] [] (by simp) (by simp)

/-- Claim C2, counterexample: at count 5 and maximum 10 the code produces
green channel `int(127.5) = 127`, not `round(127.5) = 128` as the claim
states. -/
theorem C2_counterexample :
    get_elevation_and_color 10 (DataRow.mk "a" 5) ≠
      some (5, (255, pyRound ((1 - (5 : ℚ) / 10) * 255), 0)) := by
  have h1 : get_elevation_and_color 10 (DataRow.mk "a" 5) = some (5, (255, 127, 0)) := by
    simp [get_elevation_and_color, truncToward0]
    norm_num
  have h2 : pyRound ((1 - (5 : ℚ) / 10) * 255) = 128 := by
    have he : (1 - (5 : ℚ) / 10) * 255 = 255 / 2 := by norm_num
    have hf : ⌊(255 : ℚ) / 2⌋ = 127 := by norm_num
    unfold pyRound
    rw [he, hf]
    norm_num
  rw [h1, h2]
  simp

/-- Claim C2, amended: for every row with `max_cnt > 0` (and the counts in
the range a response maximum gives them, `0 ≤ cnt ≤ max_cnt`) the derived
colour is `[255, g, 0]` with `g = floor(255 * (1 - cnt / max_cnt))` — the
truncation of `int()`, not `round()` — `g` lies in `[0, 255]`, it is 0 when
`cnt = max_cnt`, and 255 when `cnt = 0`. -/
theorem C2_green_is_truncated (max_cnt cnt : ℚ) (cid : String) (h1 : 0 < max_cnt)
    (h2 : 0 ≤ cnt) (h3 : cnt ≤ max_cnt) :
    get_elevation_and_color max_cnt (DataRow.mk cid cnt)
        = some (cnt, (255, ⌊(1 - cnt / max_cnt) * 255⌋, 0))
      ∧ 0 ≤ ⌊(1 - cnt / max_cnt) * 255⌋
      ∧ ⌊(1 - cnt / max_cnt) * 255⌋ ≤ 255
      ∧ (cnt = max_cnt → ⌊(1 - cnt / max_cnt) * 255⌋ = 0)
      ∧ (cnt = 0 → ⌊(1 - cnt / max_cnt) * 255⌋ = 255) := by
  have hratio0 : 0 ≤ cnt / max_cnt := div_nonneg h2 h1.le
  have hratio1 : cnt / max_cnt ≤ 1 := (div_le_one h1).mpr h3
  have hexpr0 : 0 ≤ (1 - cnt / max_cnt) * 255 := by nlinarith
  refine ⟨?_, Int.floor_nonneg.mpr hexpr0, ?_, ?_, ?_⟩
  · unfold get_elevation_and_color truncToward0
    rw [if_neg (ne_of_gt h1), if_pos hexpr0]
  · have hle : (1 - cnt / max_cnt) * 255 ≤ 255 := by nlinarith
    calc ⌊(1 - cnt / max_cnt) * 255⌋ ≤ ⌊(255 : ℚ)⌋ := Int.floor_le_floor hle
      _ = 255 := by norm_num
  · intro e
    subst e
    rw [div_self (ne_of_gt h1)]
    norm_num
  · intro e
    subst e
    rw [zero_div]
    norm_num

/-- Claim C2, witness for the amended theorem at count 5 and maximum 10. -/
theorem C2_green_is_truncated_witness :
    get_elevation_and_color 10 (DataRow.mk "w" 5)
        = some (5, (255, ⌊(1 - (5 : ℚ) / 10) * 255⌋, 0))
      ∧ 0 ≤ ⌊(1 - (5 : ℚ) / 10) * 255⌋
      ∧ ⌊(1 - (5 : ℚ) / 10) * 255⌋ ≤ 255
      ∧ ((5 : ℚ) = 10 → ⌊(1 - (5 : ℚ) / 10) * 255⌋ = 0)
      ∧ ((5 : ℚ) = 0 → ⌊(1 - (5 : ℚ) / 10) * 255⌋ = 255) :=
  C2_green_is_truncated 10 5 "w" (by norm_num) (by norm_num) (by norm_num)

/-- Claim C3, counterexample: with a non-empty row list and an empty venue
selection the build does not raise; it returns a full deck, including a
view state whose centre coordinates are the undefined (`nan`) means. -/
theorem C3_counterexample :
    layer_builder_build [DataRow.mk "a" 1] [] =
      .ok (HexLayer.mk [HexCell.mk "a" 1 (255, 0, 0)] true 20 true,
           ScatterLayer.mk [] (200, 30, 0, 160) 200,
           ViewState.mk none none 11 20) := by
  simp [layer_builder_build, seriesMax, mapOrFail, get_elevation_and_color, seriesMean,
    truncToward0]

/-- Claim C3, amended: with an empty venue selection the build raises no
selection error; whenever it succeeds it produces a view state, whose
latitude and longitude are the undefined empty-series means (`nan`,
modelled `none`), with zoom 11 and pitch 20. -/
theorem C3_empty_selection_viewstate (rows : List DataRow) (out : Deck)
    (h : layer_builder_build rows [] = .ok out) :
    out.2.2 = ViewState.mk none none 11 20 := by
  unfold layer_builder_build at h
  split at h
  · exact absurd h (by simp)
  · split at h
    · exact absurd h (by simp)
    · injection h with h'
      rw [← h']
      simp [seriesMean]

/-- Claim C3, witness for the amended theorem at a concrete one-row
response. -/
theorem C3_empty_selection_viewstate_witness :
    (((HexLayer.mk [HexCell.mk "a" 1 (255, 0, 0)] true 20 true,
       ScatterLayer.mk [] (200, 30, 0, 160) 200,
       ViewState.mk none none 11 20)) : Deck).2.2 = ViewState.mk none none 11 20 :=
  C3_empty_selection_viewstate [DataRow.mk "a" 1]
    (HexLayer.mk [HexCell.mk "a" 1 (255, 0, 0)] true 20 true,
     ScatterLayer.mk [] (200, 30, 0, 160) 200,
     ViewState.mk none none 11 20)
    (by simp [layer_builder_build, seriesMax, mapOrFail, get_elevation_and_color, seriesMean,
      truncToward0])

/-- Claim C4, counterexample: on a trigger with an empty venue selection
the controller still issues the remote query (`fetch_data` runs); no
validation message precedes it. -/
theorem C4_counterexample :
    (main_cycle [Venue.mk "Stade A" "STA" 48 2] [] true
        (some (200, "cell_id,cnt\na,1"))).fetchInvoked = true := by
  cases h : run_inner [Venue.mk "Stade A" "STA" 48 2] [] (some (200, "cell_id,cnt\na,1")) <;>
    simp [main_cycle, lookupCodes, mapOrFail, h]

/-- Claim C4, amended: on every user trigger with an empty venue selection
the controller performs no validation and always issues the remote query;
any failure surfaces only through the generic error handler afterwards. -/
theorem C4_empty_selection_still_fetches (catalog : List Venue) (resp : HttpResult) :
    (main_cycle catalog [] true resp).fetchInvoked = true := by
  cases h : run_inner catalog [] resp <;> simp [main_cycle, lookupCodes, mapOrFail, h]

/-- Claim C6: a 2xx response with an empty body makes the client raise the
empty-response error and return no rows. -/
theorem C6_empty_body_raises (status : ℕ) (h1 : 200 ≤ status) (h2 : status < 300) :
    fetch_data (some (status, "")) = .error .emptyResponse := by
  simp only [fetch_data]
  rw [if_neg (show ¬ 400 ≤ status by omega)]
  rw [show pyStrip "" = "" from rfl]
  rw [if_pos rfl]

/-- Claim C6, witness at status 200. -/
theorem C6_empty_body_raises_witness :
    fetch_data (some (200, "")) = .error .emptyResponse :=
  C6_empty_body_raises 200 (by omega) (by omega)

/-- Claim C7, counterexample: a body that parses to zero data rows is not a
failure for the code (it returns an empty table instead of raising), and a
structurally malformed body raises the unconverted pandas parser error —
whose message is not the diagnostic carrying the truncated body — rather
than the converted `ValueError`. -/
theorem C7_counterexample :
    fetch_data (some (200, "cell_id,cnt")) = .ok (Table.mk ["cell_id", "cnt"] [])
      ∧ fetch_data (some (200, "cell_id,cnt\nx,1\ny,2,3")) = .error .pandasParserError := by
  constructor <;> decide

/-- Claim C7, amended: the converted `ValueError` (with its truncated-body
diagnostic) arises only from a pandas empty-parse failure, which a stripped
non-blank body never produces: every body whose stripped text parses is
returned as-is, zero data rows included, while a structurally malformed
body surfaces the unconverted pandas parser error. -/
theorem C7_only_emptydata_converted :
    (∀ (body : String) (t : Table), pdReadCSV (pyStrip body) = .ok t →
        fetch_data (some (200, body)) = .ok t)
      ∧ fetch_data (some (200, "cell_id,cnt\nr,1\ns,2,3")) = .error .pandasParserError := by
  constructor
  · intro body t h
    simp only [fetch_data]
    rw [if_neg (by norm_num)]
    by_cases hs : pyStrip body = ""
    · rw [hs] at h
      have : pdReadCSV "" = .error .emptyData := by decide
      rw [this] at h
      simp at h
    · rw [if_neg hs, h]
  · decide

theorem lookup_isSome_of (n : String) :
    ∀ d : List (String × String), (∃ p ∈ d, p.1 = n) → (List.lookup n d).isSome = true
  | [], h => by simp at h
  | (k, v) :: d, h => by
    rw [List.lookup]
    by_cases e : n = k
    · rw [show (n == k) = true from by simp [e]]
      rfl
    · rw [show (n == k) = false from by simp [e]]
      apply lookup_isSome_of n d
      rcases h with ⟨p, hp, hn⟩
      rcases List.mem_cons.mp hp with h' | h'
      · exact absurd (by rw [← hn, h']) e
      · exact ⟨p, h', hn⟩

theorem exists_key_dictInsert_of (d : List (String × String)) (k v n : String)
    (h : n = k ∨ ∃ p ∈ d, p.1 = n) : ∃ p ∈ dictInsert d k v, p.1 = n := by
  unfold dictInsert
  split
  case isTrue hany =>
    rcases h with e | ⟨q, hq, hn⟩
    · subst e
      rcases List.any_eq_true.mp hany with ⟨q, hq, hqk⟩
      simp only [decide_eq_true_eq] at hqk
      exact ⟨(n, v), List.mem_map.mpr ⟨q, hq, by rw [if_pos hqk]⟩, rfl⟩
    · by_cases e : q.1 = k
      · exact ⟨(k, v), List.mem_map.mpr ⟨q, hq, by rw [if_pos e]⟩, by rw [← hn, e]⟩
      · exact ⟨q, List.mem_map.mpr ⟨q, hq, by rw [if_neg e]⟩, hn⟩
  case isFalse hany =>
    rcases h with e | ⟨q, hq, hn⟩
    · exact ⟨(k, v), by simp, by simp [e]⟩
    · exact ⟨q, by simp [hq], hn⟩

theorem name_to_code_aux_isSome :
    ∀ (catalog : List Venue) (d : List (String × String)) (n : String),
      ((∃ p ∈ d, p.1 = n) ∨ ∃ v ∈ catalog, v.name = n) →
      (List.lookup n (catalog.foldl (fun d v => dictInsert d v.name v.code) d)).isSome = true
  | [], d, n, h => by
    rcases h with h | h
    · exact lookup_isSome_of n d h
    · simp at h
  | v :: cat, d, n, h => by
    rw [List.foldl_cons]
    apply name_to_code_aux_isSome cat
    rcases h with h | ⟨w, hw, hn⟩
    · exact Or.inl (exists_key_dictInsert_of d v.name v.code n (Or.inr h))
    · rcases List.mem_cons.mp hw with h' | h'
      · subst h'
        exact Or.inl (exists_key_dictInsert_of d w.name w.code n (Or.inl hn.symm))
      · exact Or.inr ⟨w, h', hn⟩

theorem mapOrFail_isSome (f : α → Option β) :
    ∀ l : List α, (∀ x ∈ l, (f x).isSome = true) → (mapOrFail f l).isSome = true
  | [], _ => rfl
  | x :: xs, h => by
    rw [mapOrFail]
    cases hx : f x with
    | none =>
      have hc := h x (by simp)
      rw [hx] at hc
      simp at hc
    | some y =>
      cases hrec : mapOrFail f xs with
      | none =>
        have hc := mapOrFail_isSome f xs (fun z hz => h z (by simp [hz]))
        rw [hrec] at hc
        simp at hc
      | some ys => rfl

/-- Claim C9: whenever the selected names all come from the venue catalog
(which the multiselect widget guarantees), no exception of the error
taxonomy escapes a user-triggered cycle: every error raised inside the
triggered body is converted by the catch-all handler into the single
user-visible message, and the run never crashes. -/
theorem C9_no_error_escapes (catalog : List Venue) (selected : List String)
    (triggered : Bool) (resp : HttpResult)
    (hsel : ∀ n ∈ selected, ∃ v ∈ catalog, v.name = n) :
    isCrashed (main_cycle catalog selected triggered resp).outcome = false := by
  have hlk : (lookupCodes catalog selected).isSome = true := by
    unfold lookupCodes
    apply mapOrFail_isSome
    intro n hn
    exact name_to_code_aux_isSome catalog [] n (Or.inr (hsel n hn))
  unfold main_cycle
  cases hl : lookupCodes catalog selected with
  | none => rw [hl] at hlk; exact absurd hlk (by simp)
  | some codes =>
    cases triggered with
    | false => rfl
    | true =>
      cases hr : run_inner catalog selected resp <;> simp [isCrashed]

/-- Claim C9, witness: a triggered cycle whose remote call fails at the
transport level ends in the converted error message, not a crash. -/
theorem C9_no_error_escapes_witness :
    isCrashed (main_cycle [Venue.mk "Stade A" "STA" 48 2] ["Stade A"] true none).outcome
      = false :=
  C9_no_error_escapes [Venue.mk "Stade A" "STA" 48 2] ["Stade A"] true none
    (by
      intro n hn
      simp only [List.mem_singleton] at hn
      subst hn
      exact ⟨Venue.mk "Stade A" "STA" 48 2, by simp, rfl⟩)

theorem hexDigitVal_lt16 {c : Char} {v : ℕ} (h : hexDigitVal? c = some v) : v < 16 := by
  unfold hexDigitVal? at h
  split_ifs at h with h1 h2 h3 <;>
    (try exact Option.noConfusion h) <;>
    (injection h with h) <;>
    simp only [Bool.and_eq_true, decide_eq_true_eq] at * <;>
    omega

/-- Claim C10: on a string of exactly six hexadecimal digits, optionally
prefixed by `#`, `hex_to_rgb` returns the triple of its three consecutive
2-character pairs read as base-16 numbers, each value at most 255.  (The
embedding of the main flow above makes no reference to `hex_to_rgb`,
mirroring the source, where nothing in `main` calls it.) -/
theorem C10_hex_to_rgb_pairs (pre : Bool) (c0 c1 c2 c3 c4 c5 : Char)
    (v0 v1 v2 v3 v4 v5 : ℕ)
    (h0 : hexDigitVal? c0 = some v0) (h1 : hexDigitVal? c1 = some v1)
    (h2 : hexDigitVal? c2 = some v2) (h3 : hexDigitVal? c3 = some v3)
    (h4 : hexDigitVal? c4 = some v4) (h5 : hexDigitVal? c5 = some v5) :
    hex_to_rgb (String.mk ((if pre then ['#'] else []) ++ [c0, c1, c2, c3, c4, c5]))
      = some (16 * v0 + v1, 16 * v2 + v3, 16 * v4 + v5)
    ∧ 16 * v0 + v1 ≤ 255 ∧ 16 * v2 + v3 ≤ 255 ∧ 16 * v4 + v5 ≤ 255 := by
  have b0 := hexDigitVal_lt16 h0
  have b1 := hexDigitVal_lt16 h1
  have b2 := hexDigitVal_lt16 h2
  have b3 := hexDigitVal_lt16 h3
  have b4 := hexDigitVal_lt16 h4
  have b5 := hexDigitVal_lt16 h5
  have hc0 : ¬ c0 = '#' := by
    intro e
    rw [e, show hexDigitVal? '#' = none from by decide] at h0
    exact Option.noConfusion h0
  constructor
  · unfold hex_to_rgb
    have ht : pyLstripHash ((if pre then ['#'] else []) ++ [c0, c1, c2, c3, c4, c5])
        = [c0, c1, c2, c3, c4, c5] := by
      cases pre <;> simp [pyLstripHash, hc0]
    rw [show (String.mk ((if pre then ['#'] else []) ++ [c0, c1, c2, c3, c4, c5])).data
        = (if pre then ['#'] else []) ++ [c0, c1, c2, c3, c4, c5] from rfl]
    rw [ht]
    simp [int16?, int16Core, h0, h1, h2, h3, h4, h5]
  · omega

/-- Claim C10, witness on the string `#ff8800`. -/
theorem C10_hex_to_rgb_pairs_witness :
    hex_to_rgb (String.mk ((if true then ['#'] else []) ++ ['f', 'f', '8', '8', '0', '0']))
      = some (16 * 15 + 15, 16 * 8 + 8, 16 * 0 + 0)
    ∧ 16 * 15 + 15 ≤ 255 ∧ 16 * 8 + 8 ≤ 255 ∧ 16 * 0 + 0 ≤ 255 :=
  C10_hex_to_rgb_pairs true 'f' 'f' '8' '8' '0' '0' 15 15 8 8 0 0
    (by decide) (by decide) (by decide) (by decide) (by decide) (by decide)

